import Mathlib

/-!
Shallow embedding of the EC (embedded controller) hardware-control core of
the ec-su_axb35-win server (src/server/src/ec.rs and the task layout of
src/server/src/main.rs), together with theorems settling the frozen claims
about it.

Modelling conventions:
* Machine bytes (`u8`) and words (`u16`) are `Nat`; masking is explicit
  (`&&& 0xF`) where the source masks.
* The Port Transport / Link Protocol layer below `read_byte`/`write_byte`
  is abstracted by an oracle `Hw` giving each register read/write an
  `Except String` outcome, matching the `Result<u8, String>` signatures of
  `EcController::read_byte` / `write_byte`.  The retry loop inside those
  two functions is embedded separately (`read_byte_retries`,
  `write_byte_retries`) over a per-attempt outcome oracle.
* Every hardware access performed by the Register Semantics layer is
  recorded in an `EcSt.trace` list, so that claims about "no hardware
  access" or "exactly one level write" are statements about that trace.
* `FanCurveData`, the fan curve array and `execute_operation` are direct
  translations of the corresponding Rust items, keeping names.
-/

namespace EcSu

/-! ## Constants (src/server/src/ec.rs lines 18-47) -/

def COMMAND_PORT : Nat := 0x66
def DATA_PORT : Nat := 0x62
def EC_COMMAND_READ : Nat := 0x80
def EC_COMMAND_WRITE : Nat := 0x81
def RW_TIMEOUT : Nat := 500
def MAX_RETRIES : Nat := 5

def EC_REG_FIRMWARE_MAJOR : Nat := 0x00
def EC_REG_FIRMWARE_MINOR : Nat := 0x01
def EC_REG_APU_POWER_MODE : Nat := 0x31
def EC_REG_APU_TEMPERATURE : Nat := 0x70

def EC_REG_FAN1_SPEED_HIGH : Nat := 0x35
def EC_REG_FAN1_SPEED_LOW : Nat := 0x36
def EC_REG_FAN1_MODE : Nat := 0x21

def EC_REG_FAN2_SPEED_HIGH : Nat := 0x37
def EC_REG_FAN2_SPEED_LOW : Nat := 0x38
def EC_REG_FAN2_MODE : Nat := 0x23

def EC_REG_FAN3_SPEED_HIGH : Nat := 0x28
def EC_REG_FAN3_SPEED_LOW : Nat := 0x29
def EC_REG_FAN3_MODE : Nat := 0x25

/-! ## Data model (ec.rs lines 55-126) -/

inductive FanMode where
  | Auto
  | Fixed
  | Curve
deriving DecidableEq, Repr

/-- `FanMode::from_str` (ec.rs lines 108-115). -/
def FanMode.from_str (s : String) : Option FanMode :=
  if s = "auto" then some .Auto
  else if s = "fixed" then some .Fixed
  else if s = "curve" then some .Curve
  else none

/-- `FanMode::as_str` (ec.rs lines 100-106). -/
def FanMode.as_str : FanMode → String
  | .Auto => "auto"
  | .Fixed => "fixed"
  | .Curve => "curve"

/-- A `[u8; 5]` curve array.  Indexing beyond 4 never happens in the code
(indices come from levels `< 5` and `≤ 5` with `- 1`); the catch-all arm
returns the last entry. -/
structure Curve5 where
  a0 : Nat
  a1 : Nat
  a2 : Nat
  a3 : Nat
  a4 : Nat
deriving DecidableEq, Repr

def Curve5.get (c : Curve5) : Nat → Nat
  | 0 => c.a0
  | 1 => c.a1
  | 2 => c.a2
  | 3 => c.a3
  | _ => c.a4

/-- `FanCurveData` (ec.rs lines 84-89). -/
structure FanCurveData where
  rampup_curve : Curve5
  rampdown_curve : Curve5
  mode : FanMode
deriving DecidableEq, Repr

/-- `FanCurveData::default()` (ec.rs lines 118-126). -/
def FanCurveData.default : FanCurveData :=
  { rampup_curve := ⟨60, 70, 83, 95, 97⟩
    rampdown_curve := ⟨40, 50, 80, 94, 96⟩
    mode := .Auto }

/-- The `[FanCurveData; 3]` array guarded by the mutex in `EcController`.
Indexed by `fan_idx = fan_id - 1`; the code only ever uses indices 0..2. -/
structure FanCurves where
  f1 : FanCurveData
  f2 : FanCurveData
  f3 : FanCurveData
deriving DecidableEq, Repr

def FanCurves.get (c : FanCurves) : Nat → FanCurveData
  | 0 => c.f1
  | 1 => c.f2
  | _ => c.f3

def FanCurves.set (c : FanCurves) : Nat → FanCurveData → FanCurves
  | 0, d => { c with f1 := d }
  | 1, d => { c with f2 := d }
  | _, d => { c with f3 := d }

/-- `curves[fan_idx].mode = m` on the curve array. -/
def FanCurves.set_mode (c : FanCurves) (fan_idx : Nat) (m : FanMode) : FanCurves :=
  c.set fan_idx { c.get fan_idx with mode := m }

/-- `curves[fan_idx].rampup_curve = curve` on the curve array. -/
def FanCurves.set_rampup (c : FanCurves) (fan_idx : Nat) (curve : Curve5) : FanCurves :=
  c.set fan_idx { c.get fan_idx with rampup_curve := curve }

/-- `curves[fan_idx].rampdown_curve = curve` on the curve array. -/
def FanCurves.set_rampdown (c : FanCurves) (fan_idx : Nat) (curve : Curve5) : FanCurves :=
  c.set fan_idx { c.get fan_idx with rampdown_curve := curve }

/-- Initial curve state built in `EcController::new` (ec.rs lines 154-158):
defaults for all three fans, with fan 3 given different curves. -/
def initial_fan_curves : FanCurves :=
  { f1 := FanCurveData.default
    f2 := FanCurveData.default
    f3 := { rampup_curve := ⟨20, 60, 83, 95, 97⟩
            rampdown_curve := ⟨0, 50, 80, 94, 96⟩
            mode := .Auto } }

/-- `EcOperation` (ec.rs lines 56-70). -/
inductive EcOperation where
  | GetFirmwareVersion
  | GetApuPowerMode
  | SetApuPowerMode (mode : String)
  | GetApuTemperature
  | GetFanRpm (fan_id : Nat)
  | GetFanMode (fan_id : Nat)
  | SetFanMode (fan_id : Nat) (mode : String)
  | GetFanLevel (fan_id : Nat)
  | SetFanLevel (fan_id : Nat) (level : Nat)
  | GetFanRampupCurve (fan_id : Nat)
  | SetFanRampupCurve (fan_id : Nat) (curve : Curve5)
  | GetFanRampdownCurve (fan_id : Nat)
  | SetFanRampdownCurve (fan_id : Nat) (curve : Curve5)
deriving DecidableEq, Repr

/-- `EcResult` (ec.rs lines 72-82). -/
inductive EcResult where
  | FirmwareVersion (major minor : Nat)
  | ApuPowerMode (mode : String)
  | ApuTemperature (temp : Nat)
  | FanRpm (rpm : Nat)
  | FanMode (mode : String)
  | FanLevel (level : Nat)
  | FanRampupCurve (curve : Curve5)
  | FanRampdownCurve (curve : Curve5)
deriving DecidableEq, Repr

/-! ## Hardware abstraction and access trace -/

/-- One `read_byte`/`write_byte` call issued to the hardware. -/
inductive HwAccess where
  | read (register : Nat)
  | write (register : Nat) (value : Nat)
deriving DecidableEq, Repr

/-- Oracle for the outcomes of `read_byte` / `write_byte` (each already
including its internal Link Protocol retries, embedded separately below). -/
structure Hw where
  readReg : Nat → Except String Nat
  writeReg : Nat → Nat → Except String Unit

/-- Software-visible state threaded through an operation: the fan-curve
array plus the trace of hardware accesses issued so far. -/
structure EcSt where
  curves : FanCurves
  trace : List HwAccess
deriving DecidableEq, Repr

/-- `EcController::read_byte` as seen by the Register Semantics layer:
record the access, return the oracle's outcome. -/
def read_byte (hw : Hw) (s : EcSt) (register : Nat) :
    Except String Nat × EcSt :=
  (hw.readReg register, { s with trace := s.trace ++ [.read register] })

/-- `EcController::write_byte` as seen by the Register Semantics layer. -/
def write_byte (hw : Hw) (s : EcSt) (register value : Nat) :
    Except String Unit × EcSt :=
  (hw.writeReg register value, { s with trace := s.trace ++ [.write register value] })

/-! ## Register helpers (ec.rs lines 365-424) -/

/-- `get_fan_speed_registers` (ec.rs lines 365-372). -/
def get_fan_speed_registers (fan_id : Nat) : Except String (Nat × Nat) :=
  if fan_id = 1 then .ok (EC_REG_FAN1_SPEED_HIGH, EC_REG_FAN1_SPEED_LOW)
  else if fan_id = 2 then .ok (EC_REG_FAN2_SPEED_HIGH, EC_REG_FAN2_SPEED_LOW)
  else if fan_id = 3 then .ok (EC_REG_FAN3_SPEED_HIGH, EC_REG_FAN3_SPEED_LOW)
  else .error ("Invalid fan ID: " ++ toString fan_id)

/-- `get_fan_mode_register` (ec.rs lines 374-381). -/
def get_fan_mode_register (fan_id : Nat) : Except String Nat :=
  if fan_id = 1 then .ok EC_REG_FAN1_MODE
  else if fan_id = 2 then .ok EC_REG_FAN2_MODE
  else if fan_id = 3 then .ok EC_REG_FAN3_MODE
  else .error ("Invalid fan ID: " ++ toString fan_id)

/-- The per-fan base value `0x10 / 0x20 / 0x30` matched in `write_fan_level`
and `SetFanMode` (ec.rs lines 240-245 and 389-394). -/
def fan_base (fan_id : Nat) : Except String Nat :=
  if fan_id = 1 then .ok 0x10
  else if fan_id = 2 then .ok 0x20
  else if fan_id = 3 then .ok 0x30
  else .error ("Invalid fan ID: " ++ toString fan_id)

/-- The level-code match in `write_fan_level` (ec.rs lines 396-404):
off→0x7, 20%→0x2, 40%→0x3, 60%→0x4, 80%→0x5, 100%→0x6, default 0x7. -/
def level_code (level : Nat) : Nat :=
  if level = 0 then 0x7
  else if level = 1 then 0x2
  else if level = 2 then 0x3
  else if level = 3 then 0x4
  else if level = 4 then 0x5
  else if level = 5 then 0x6
  else 0x7

/-- The byte written for a fan level: `base_val + code` (ec.rs line 396). -/
def encode_level (fan_id level : Nat) : Nat :=
  (match fan_base fan_id with | .ok b => b | .error _ => 0) + level_code level

/-- The level decode shared by `GetFanLevel` and `read_fan_level`
(ec.rs lines 290-298 and 413-421): match on `level_val & 0xF`, any
unrecognized code decodes to 0 (off). -/
def decode_level (level_val : Nat) : Nat :=
  let c := level_val &&& 0xF
  if c = 0x7 then 0
  else if c = 0x2 then 1
  else if c = 0x3 then 2
  else if c = 0x4 then 3
  else if c = 0x5 then 4
  else if c = 0x6 then 5
  else 0

/-- `write_fan_level` (ec.rs lines 383-407). -/
def write_fan_level (hw : Hw) (s : EcSt) (fan_id level : Nat) :
    Except String Unit × EcSt :=
  if level > 5 then (.error "Fan level must be 0-5", s)
  else
    match get_fan_mode_register fan_id with
    | .error e => (.error e, s)
    | .ok mode_reg =>
      match fan_base fan_id with
      | .error e => (.error e, s)
      | .ok base_val => write_byte hw s (mode_reg + 1) (base_val + level_code level)

/-- `read_fan_level` (ec.rs lines 409-424). -/
def read_fan_level (hw : Hw) (s : EcSt) (fan_id : Nat) :
    Except String Nat × EcSt :=
  match get_fan_mode_register fan_id with
  | .error e => (.error e, s)
  | .ok mode_reg =>
    match read_byte hw s (mode_reg + 1) with
    | (.error e, s1) => (.error e, s1)
    | (.ok level_val, s1) => (.ok (decode_level level_val), s1)

/-- Two-digit uppercase hex, the `{:02X}` format used in error messages. -/
def hexDigit (n : Nat) : String :=
  if n = 0 then "0" else if n = 1 then "1" else if n = 2 then "2"
  else if n = 3 then "3" else if n = 4 then "4" else if n = 5 then "5"
  else if n = 6 then "6" else if n = 7 then "7" else if n = 8 then "8"
  else if n = 9 then "9" else if n = 10 then "A" else if n = 11 then "B"
  else if n = 12 then "C" else if n = 13 then "D" else if n = 14 then "E"
  else "F"

def hex2 (n : Nat) : String :=
  hexDigit ((n / 16) &&& 0xF) ++ hexDigit (n &&& 0xF)

/-- The initial-level scan in the `SetFanMode` curve branch
(ec.rs lines 269-277): `for i in (1..=5).rev() { if temp >= rampup[i-1]
{ initial_level = i; break } }`, unrolled. -/
def initial_curve_level (rampup : Curve5) (temp : Nat) : Nat :=
  if rampup.get 4 ≤ temp then 5
  else if rampup.get 3 ≤ temp then 4
  else if rampup.get 2 ≤ temp then 3
  else if rampup.get 1 ≤ temp then 2
  else if rampup.get 0 ≤ temp then 1
  else 0

/-! ## `EcController::execute_operation` (ec.rs lines 166-363) -/

def execute_operation (hw : Hw) (s : EcSt) :
    EcOperation → Except String EcResult × EcSt
  | .GetFirmwareVersion =>
    match read_byte hw s EC_REG_FIRMWARE_MAJOR with
    | (.error e, s1) => (.error e, s1)
    | (.ok major, s1) =>
      match read_byte hw s1 EC_REG_FIRMWARE_MINOR with
      | (.error e, s2) => (.error e, s2)
      | (.ok minor, s2) =>
        if (major = 0 ∧ minor = 0) ∨ (major = 0xFF ∧ minor = 0xFF) then
          (.error "Invalid firmware version detected", s2)
        else
          (.ok (.FirmwareVersion major minor), s2)
  | .GetApuPowerMode =>
    match read_byte hw s EC_REG_APU_POWER_MODE with
    | (.error e, s1) => (.error e, s1)
    | (.ok mode_val, s1) =>
      if mode_val = 0x00 then (.ok (.ApuPowerMode "balanced"), s1)
      else if mode_val = 0x01 then (.ok (.ApuPowerMode "performance"), s1)
      else if mode_val = 0x02 then (.ok (.ApuPowerMode "quiet"), s1)
      else (.error ("Unknown power mode: 0x" ++ hex2 mode_val), s1)
  | .SetApuPowerMode mode =>
    let mode_val : Except String Nat :=
      if mode = "balanced" then .ok 0x00
      else if mode = "performance" then .ok 0x01
      else if mode = "quiet" then .ok 0x02
      else .error ("Invalid power mode: " ++ mode)
    match mode_val with
    | .error e => (.error e, s)
    | .ok v =>
      match write_byte hw s EC_REG_APU_POWER_MODE v with
      | (.error e, s1) => (.error e, s1)
      | (.ok _, s1) => (.ok (.ApuPowerMode mode), s1)
  | .GetApuTemperature =>
    match read_byte hw s EC_REG_APU_TEMPERATURE with
    | (.error e, s1) => (.error e, s1)
    | (.ok temp, s1) => (.ok (.ApuTemperature temp), s1)
  | .GetFanRpm fan_id =>
    match get_fan_speed_registers fan_id with
    | .error e => (.error e, s)
    | .ok (high_reg, low_reg) =>
      match read_byte hw s high_reg with
      | (.error e, s1) => (.error e, s1)
      | (.ok high, s1) =>
        match read_byte hw s1 low_reg with
        | (.error e, s2) => (.error e, s2)
        | (.ok low, s2) =>
          let rpm := (high <<< 8) ||| low
          let rpm := if fan_id = 3 ∧ rpm = 8000 then 0 else rpm
          (.ok (.FanRpm rpm), s2)
  | .GetFanMode fan_id =>
    match get_fan_mode_register fan_id with
    | .error e => (.error e, s)
    | .ok mode_reg =>
      match read_byte hw s mode_reg with
      | (.error e, s1) => (.error e, s1)
      | (.ok mode_val, s1) =>
        let fan_idx := fan_id - 1
        if mode_val = 0x10 ∨ mode_val = 0x20 ∨ mode_val = 0x30 then
          (.ok (.FanMode "auto"), s1)
        else if mode_val = 0x11 ∨ mode_val = 0x21 ∨ mode_val = 0x31 then
          if (s1.curves.get fan_idx).mode = FanMode.Curve then
            (.ok (.FanMode "curve"), s1)
          else
            (.ok (.FanMode "fixed"), s1)
        else
          (.error ("Unknown fan mode: 0x" ++ hex2 mode_val), s1)
  | .SetFanMode fan_id mode =>
    match get_fan_mode_register fan_id with
    | .error e => (.error e, s)
    | .ok mode_reg =>
      match fan_base fan_id with
      | .error e => (.error e, s)
      | .ok base_val =>
        match FanMode.from_str mode with
        | none => (.error ("Invalid fan mode: " ++ mode), s)
        | some fan_mode =>
          let mode_val :=
            match fan_mode with
            | .Auto => base_val
            | .Fixed => base_val + 1
            | .Curve => base_val + 1
          let fan_idx := fan_id - 1
          -- "Update stored mode" happens before the hardware write (ec.rs 255-260)
          let s := { s with curves := s.curves.set_mode fan_idx fan_mode }
          match write_byte hw s mode_reg mode_val with
          | (.error e, s1) => (.error e, s1)
          | (.ok _, s1) =>
            if fan_mode = FanMode.Curve then
              -- `if let Ok(temp) = self.read_byte(..)`: a failed temperature
              -- read is swallowed and no level-set is issued (ec.rs 266-281)
              match read_byte hw s1 EC_REG_APU_TEMPERATURE with
              | (.error _, s2) => (.ok (.FanMode mode), s2)
              | (.ok temp, s2) =>
                let initial_level :=
                  initial_curve_level (s2.curves.get fan_idx).rampup_curve temp
                match write_fan_level hw s2 fan_id initial_level with
                | (.error e, s3) => (.error e, s3)
                | (.ok _, s3) => (.ok (.FanMode mode), s3)
            else
              (.ok (.FanMode mode), s1)
  | .GetFanLevel fan_id =>
    match get_fan_mode_register fan_id with
    | .error e => (.error e, s)
    | .ok mode_reg =>
      match read_byte hw s (mode_reg + 1) with
      | (.error e, s1) => (.error e, s1)
      | (.ok level_val, s1) => (.ok (.FanLevel (decode_level level_val)), s1)
  | .SetFanLevel fan_id level =>
    if level > 5 then (.error "Fan level must be 0-5", s)
    else
      match write_fan_level hw s fan_id level with
      | (.error e, s1) => (.error e, s1)
      | (.ok _, s1) => (.ok (.FanLevel level), s1)
  | .GetFanRampupCurve fan_id =>
    if fan_id < 1 ∨ fan_id > 3 then
      (.error ("Invalid fan ID: " ++ toString fan_id), s)
    else
      (.ok (.FanRampupCurve (s.curves.get (fan_id - 1)).rampup_curve), s)
  | .SetFanRampupCurve fan_id curve =>
    if fan_id < 1 ∨ fan_id > 3 then
      (.error ("Invalid fan ID: " ++ toString fan_id), s)
    else if curve.a0 > 100 ∨ curve.a1 > 100 ∨ curve.a2 > 100 ∨
        curve.a3 > 100 ∨ curve.a4 > 100 then
      -- the source loop returns the same error at the first offending entry
      (.error "Temperature values must be 0-100°C", s)
    else
      (.ok (.FanRampupCurve curve),
       { s with curves := s.curves.set_rampup (fan_id - 1) curve })
  | .GetFanRampdownCurve fan_id =>
    if fan_id < 1 ∨ fan_id > 3 then
      (.error ("Invalid fan ID: " ++ toString fan_id), s)
    else
      (.ok (.FanRampdownCurve (s.curves.get (fan_id - 1)).rampdown_curve), s)
  | .SetFanRampdownCurve fan_id curve =>
    if fan_id < 1 ∨ fan_id > 3 then
      (.error ("Invalid fan ID: " ++ toString fan_id), s)
    else if curve.a0 > 100 ∨ curve.a1 > 100 ∨ curve.a2 > 100 ∨
        curve.a3 > 100 ∨ curve.a4 > 100 then
      (.error "Temperature values must be 0-100°C", s)
    else
      (.ok (.FanRampdownCurve curve),
       { s with curves := s.curves.set_rampdown (fan_id - 1) curve })

/-! ## `EcController::update_curve_fans` (ec.rs lines 426-461) -/

/-- Loop body of `update_curve_fans` over the remaining fan ids, carrying
the accumulated log messages.  On the first fan whose level changes, the
new level is written and the function returns early (ec.rs lines 452-456). -/
def update_curve_loop (hw : Hw) (temp : Nat) (msgs : List String) :
    List Nat → EcSt → Except String (List String) × EcSt
  | [], s => (.ok msgs, s)
  | fan_id :: rest, s =>
    let fan_idx := fan_id - 1
    let fc := s.curves.get fan_idx
    if fc.mode = FanMode.Curve then
      match read_fan_level hw s fan_id with
      | (.error e, s1) => (.error e, s1)
      | (.ok current_level, s1) =>
        if current_level < 5 ∧ fc.rampup_curve.get current_level ≤ temp then
          let new_level := current_level + 1
          let msgs1 := msgs ++ ["Fan" ++ toString fan_id ++ " ramping up to level "
            ++ toString new_level ++ " (temp: " ++ toString temp ++ "°C, threshold: "
            ++ toString (fc.rampup_curve.get current_level) ++ "°C)"]
          match write_fan_level hw s1 fan_id new_level with
          | (.error e, s2) => (.error e, s2)
          | (.ok _, s2) => (.ok msgs1, s2)
        else if 0 < current_level ∧ temp ≤ fc.rampdown_curve.get (current_level - 1) then
          let new_level := current_level - 1
          let msgs1 := msgs ++ ["Fan" ++ toString fan_id ++ " ramping down to level "
            ++ toString new_level ++ " (temp: " ++ toString temp ++ "°C, threshold: "
            ++ toString (fc.rampdown_curve.get (current_level - 1)) ++ "°C)"]
          match write_fan_level hw s1 fan_id new_level with
          | (.error e, s2) => (.error e, s2)
          | (.ok _, s2) => (.ok msgs1, s2)
        else
          update_curve_loop hw temp msgs rest s1
    else
      update_curve_loop hw temp msgs rest s

/-- `update_curve_fans` (ec.rs lines 426-461): read the temperature once,
then scan fans 1, 2, 3. -/
def update_curve_fans (hw : Hw) (s : EcSt) :
    Except String (List String) × EcSt :=
  match read_byte hw s EC_REG_APU_TEMPERATURE with
  | (.error e, s1) => (.error e, s1)
  | (.ok temp, s1) => update_curve_loop hw temp [] [1, 2, 3] s1

/-- `has_curve_fans` (ec.rs lines 463-466). -/
def has_curve_fans (c : FanCurves) : Bool :=
  c.f1.mode = FanMode.Curve ∨ c.f2.mode = FanMode.Curve ∨ c.f3.mode = FanMode.Curve

/-! ## The Link Protocol retry loops (ec.rs lines 586-602)

`read_byte` / `write_byte` call `try_read_byte` / `try_write_byte` up to
`MAX_RETRIES` times, returning the first success.  `attempts i` is the
outcome of the `i`-th call of the underlying try-function. -/

def ec_retry {α : Type} (msg : String) (attempts : Nat → Except String α) :
    Nat → Nat → Except String α
  | 0, _ => .error msg
  | n + 1, i =>
    match attempts i with
    | .ok value => .ok value
    | .error _ => ec_retry msg attempts n (i + 1)

/-- `EcController::read_byte` (ec.rs lines 586-593) over the outcomes of
its successive `try_read_byte` calls. -/
def read_byte_model (attempts : Nat → Except String Nat) : Except String Nat :=
  ec_retry "Failed to read byte after retries" attempts MAX_RETRIES 0

/-- `EcController::write_byte` (ec.rs lines 595-602) over the outcomes of
its successive `try_write_byte` calls. -/
def write_byte_model (attempts : Nat → Except String Unit) : Except String Unit :=
  ec_retry "Failed to write byte after retries" attempts MAX_RETRIES 0

/-! ## Statement helpers (readings of the spec sentences, to be related to
the code embedding above) -/

/-- The mode register address for a valid fan id, as a total function
(0x21 / 0x23 / 0x25 for fans 1 / 2 / 3). -/
def fan_mode_reg_val (fan_id : Nat) : Nat :=
  if fan_id = 1 then EC_REG_FAN1_MODE
  else if fan_id = 2 then EC_REG_FAN2_MODE
  else EC_REG_FAN3_MODE

/-- The base value for a valid fan id, as a total function. -/
def fan_base_val (fan_id : Nat) : Nat :=
  if fan_id = 1 then 0x10 else if fan_id = 2 then 0x20 else 0x30

/-- The speed high register for a valid fan id, as a total function. -/
def fan_speed_high_reg (fan_id : Nat) : Nat :=
  if fan_id = 1 then EC_REG_FAN1_SPEED_HIGH
  else if fan_id = 2 then EC_REG_FAN2_SPEED_HIGH
  else EC_REG_FAN3_SPEED_HIGH

/-- The speed low register for a valid fan id, as a total function. -/
def fan_speed_low_reg (fan_id : Nat) : Nat :=
  if fan_id = 1 then EC_REG_FAN1_SPEED_LOW
  else if fan_id = 2 then EC_REG_FAN2_SPEED_LOW
  else EC_REG_FAN3_SPEED_LOW

/-- The single-step ramp decision of the curve monitor for one fan:
`some (L+1)` when `L < 5` and `T ≥ rampup[L]`, otherwise `some (L-1)` when
`L > 0` and `T ≤ rampdown[L-1]`, otherwise `none`. -/
def ramp_decision (fc : FanCurveData) (temp current_level : Nat) : Option Nat :=
  if current_level < 5 ∧ fc.rampup_curve.get current_level ≤ temp then
    some (current_level + 1)
  else if 0 < current_level ∧ temp ≤ fc.rampdown_curve.get (current_level - 1) then
    some (current_level - 1)
  else
    none

/-- Scanning the given fans in order, the first fan in Curve mode whose
ramp decision fires, together with its new level. -/
def first_step (curves : FanCurves) (temp : Nat) (level_of : Nat → Nat) :
    List Nat → Option (Nat × Nat)
  | [] => none
  | f :: rest =>
    let fc := curves.get (f - 1)
    if fc.mode = FanMode.Curve then
      match ramp_decision fc temp (level_of f) with
      | some nl => some (f, nl)
      | none => first_step curves temp level_of rest
    else
      first_step curves temp level_of rest

/-- `true` exactly on the `write` accesses of a trace. -/
def is_write : HwAccess → Bool
  | .write _ _ => true
  | .read _ => false

/-! ## Port-level handshake model (ec.rs lines 521-584) for the
serialization claim

An atomic step is one `DeviceIoControl` request against the WinRing0
driver: a one-byte read or write of an I/O port. -/

inductive PortAccess where
  | read (port : Nat)
  | write (port : Nat) (value : Nat)
deriving DecidableEq, Repr

/-- The port steps of one successful `try_read_byte` handshake
(ec.rs lines 545-563), with each bounded wait shown as its minimal single
status poll of the command port. -/
def try_read_byte_ports (register : Nat) : List PortAccess :=
  [.read COMMAND_PORT,
   .write COMMAND_PORT EC_COMMAND_READ,
   .read COMMAND_PORT,
   .write DATA_PORT register,
   .read COMMAND_PORT,
   .read COMMAND_PORT,
   .read DATA_PORT]

/-- The port steps of one successful `try_write_byte` handshake
(ec.rs lines 565-584). -/
def try_write_byte_ports (register value : Nat) : List PortAccess :=
  [.read COMMAND_PORT,
   .write COMMAND_PORT EC_COMMAND_WRITE,
   .read COMMAND_PORT,
   .write DATA_PORT register,
   .read COMMAND_PORT,
   .write DATA_PORT value]

/-- Port-level expansion of one `read_byte`/`write_byte` register access
(ignoring retries: the first, successful handshake). -/
def port_steps : HwAccess → List PortAccess
  | .read register => try_read_byte_ports register
  | .write register value => try_write_byte_ports register value

/-- The two tasks of src/server/src/main.rs that issue EC handshakes: the
EC operation handler spawned at lines 524-542 (the Operation Serializer
worker draining the mpsc queue) and the curve monitoring task spawned at
lines 544-585, which calls `update_curve_fans` on the shared controller
directly instead of submitting to the queue. -/
inductive TaskId where
  | serializer
  | monitor
deriving DecidableEq, Repr

def tag (tid : TaskId) (steps : List PortAccess) : List (TaskId × PortAccess) :=
  steps.map (fun a => (tid, a))

/-- `Interleaving xs ys zs`: `zs` is a merge of `xs` and `ys` preserving
the order of each — the possible executions of two concurrent tasks whose
atomic steps are the list elements. -/
inductive Interleaving {α : Type} : List α → List α → List α → Prop
  | nil : Interleaving [] [] []
  | left {x : α} {xs ys zs : List α} :
      Interleaving xs ys zs → Interleaving (x :: xs) ys (x :: zs)
  | right {y : α} {xs ys zs : List α} :
      Interleaving xs ys zs → Interleaving xs (y :: ys) (y :: zs)

/-- A step of one task falls strictly inside another task's handshake:
positions `i < j < k` where steps `i` and `k` belong to one task and step
`j` to the other. -/
def overlapped (t : List (TaskId × PortAccess)) : Prop :=
  ∃ i j k : Nat, i < j ∧ j < k ∧ k < t.length ∧
    (t.getD i (TaskId.serializer, .read 0)).1 = (t.getD k (TaskId.serializer, .read 0)).1 ∧
    (t.getD i (TaskId.serializer, .read 0)).1 ≠ (t.getD j (TaskId.serializer, .read 0)).1

/-! ## Concrete instances used by witnesses and counterexamples -/

/-- A hardware oracle whose register reads return `mem r` and whose writes
always succeed. -/
def hw_of (mem : Nat → Nat) : Hw :=
  { readReg := fun r => .ok (mem r), writeReg := fun _ _ => .ok () }

/-- A hardware oracle whose writes always fail with `e` and whose reads
return `mem r`. -/
def hw_wfail (mem : Nat → Nat) (e : String) : Hw :=
  { readReg := fun r => .ok (mem r), writeReg := fun _ _ => .error e }

/-- Temperature 75°C, fan 1 level byte 0x12 (level 1), fan RPM registers
of fan 3 holding 0x1F40 = 8000, mode registers holding their auto bases. -/
def mem0 (r : Nat) : Nat :=
  if r = EC_REG_APU_TEMPERATURE then 75
  else if r = EC_REG_FAN1_MODE + 1 then 0x12
  else if r = EC_REG_FAN2_MODE + 1 then 0x22
  else if r = EC_REG_FAN3_MODE + 1 then 0x32
  else if r = EC_REG_FAN3_SPEED_HIGH then 0x1F
  else if r = EC_REG_FAN3_SPEED_LOW then 0x40
  else if r = EC_REG_FAN1_SPEED_HIGH then 0x1F
  else if r = EC_REG_FAN1_SPEED_LOW then 0x40
  else if r = EC_REG_FAN1_MODE then 0x10
  else 0

def hw0 : Hw := hw_of mem0

/-- Initial software state with an empty access trace. -/
def st0 : EcSt := { curves := initial_fan_curves, trace := [] }

/-- `st0` with fan 1 switched to Curve mode. -/
def st_curve1 : EcSt :=
  { curves := initial_fan_curves.set_mode 0 .Curve, trace := [] }

/-- Mode register of fan 1 reading 0x20 — fan 2's auto base. -/
def mem_cross (r : Nat) : Nat := if r = EC_REG_FAN1_MODE then 0x20 else 0

def hw_cross : Hw := hw_of mem_cross

/-- Mode register of fan 1 reading 0x11 (its own base + 1). -/
def mem_fx (r : Nat) : Nat := if r = EC_REG_FAN1_MODE then 0x11 else 0

/-- Attempt outcomes that time out on the first 4 tries and succeed on
the 5th. -/
def attempts_late (i : Nat) : Except String Nat :=
  if i = 4 then .ok 7 else .error "Timeout waiting for read"

/-- Attempt outcomes that always time out. -/
def attempts_timeout (_ : Nat) : Except String Nat :=
  .error "Timeout waiting for read"

/-- Write attempt outcomes that time out on the first 4 tries and succeed
on the 5th. -/
def wattempts_late (i : Nat) : Except String Unit :=
  if i = 4 then .ok () else .error "Timeout waiting for write"

/-! ## Helper lemmas -/

theorem ec_retry_isOk_iff {α : Type} (msg : String) (a : Nat → Except String α) :
    ∀ n i, (ec_retry msg a n i).isOk = true ↔ ∃ j, j < n ∧ (a (i + j)).isOk = true := by
  intro n
  induction n with
  | zero =>
    intro i
    simp [ec_retry, Except.isOk, Except.toBool]
  | succ n ih =>
    intro i
    cases h : a i with
    | ok v =>
      have hok : ec_retry msg a (n + 1) i = .ok v := by
        simp [ec_retry, h]
      rw [hok]
      constructor
      · intro _
        refine ⟨0, by omega, ?_⟩
        rw [Nat.add_zero, h]
        simp [Except.isOk, Except.toBool]
      · intro _
        simp [Except.isOk, Except.toBool]
    | error e =>
      have hstep : ec_retry msg a (n + 1) i = ec_retry msg a n (i + 1) := by
        simp [ec_retry, h]
      rw [hstep, ih (i + 1)]
      constructor
      · rintro ⟨j, hj, hok⟩
        refine ⟨j + 1, by omega, ?_⟩
        have harith : i + (j + 1) = i + 1 + j := by omega
        rw [harith]
        exact hok
      · rintro ⟨j, hj, hok⟩
        cases j with
        | zero =>
          rw [Nat.add_zero, h] at hok
          simp [Except.isOk, Except.toBool] at hok
        | succ j =>
          refine ⟨j, by omega, ?_⟩
          have harith : i + 1 + j = i + (j + 1) := by omega
          rw [harith]
          exact hok

theorem decode_level_le (b : Nat) : decode_level b ≤ 5 := by
  simp only [decode_level]
  split_ifs <;> omega

theorem initial_curve_level_le (ru : Curve5) (temp : Nat) :
    initial_curve_level ru temp ≤ 5 := by
  simp only [initial_curve_level]
  split_ifs <;> omega

/-- The initial level of the SetFanMode curve branch is the largest
`i ∈ [1,5]` with `rampup[i-1] ≤ temp`, or 0 if there is none. -/
theorem initial_curve_level_spec (ru : Curve5) (temp : Nat) :
    (initial_curve_level ru temp = 0 ∧
      ∀ i, 1 ≤ i → i ≤ 5 → temp < ru.get (i - 1)) ∨
    (1 ≤ initial_curve_level ru temp ∧ initial_curve_level ru temp ≤ 5 ∧
      ru.get (initial_curve_level ru temp - 1) ≤ temp ∧
      ∀ i, initial_curve_level ru temp < i → i ≤ 5 → temp < ru.get (i - 1)) := by
  simp only [initial_curve_level]
  split_ifs with h5 h4 h3 h2 h1
  · right
    refine ⟨by omega, by omega, by simpa using h5, ?_⟩
    intro i hi1 hi2
    omega
  · right
    refine ⟨by omega, by omega, by simpa using h4, ?_⟩
    intro i hi1 hi2
    interval_cases i
    simpa using lt_of_not_le h5
  · right
    refine ⟨by omega, by omega, by simpa using h3, ?_⟩
    intro i hi1 hi2
    interval_cases i
    · simpa using lt_of_not_le h4
    · simpa using lt_of_not_le h5
  · right
    refine ⟨by omega, by omega, by simpa using h2, ?_⟩
    intro i hi1 hi2
    interval_cases i
    · simpa using lt_of_not_le h3
    · simpa using lt_of_not_le h4
    · simpa using lt_of_not_le h5
  · right
    refine ⟨by omega, by omega, by simpa using h1, ?_⟩
    intro i hi1 hi2
    interval_cases i
    · simpa using lt_of_not_le h2
    · simpa using lt_of_not_le h3
    · simpa using lt_of_not_le h4
    · simpa using lt_of_not_le h5
  · left
    refine ⟨rfl, ?_⟩
    intro i hi1 hi2
    interval_cases i
    · simpa using lt_of_not_le h1
    · simpa using lt_of_not_le h2
    · simpa using lt_of_not_le h3
    · simpa using lt_of_not_le h4
    · simpa using lt_of_not_le h5

theorem get_fan_mode_register_eq (fan_id : Nat) (h1 : 1 ≤ fan_id) (h3 : fan_id ≤ 3) :
    get_fan_mode_register fan_id = .ok (fan_mode_reg_val fan_id) := by
  interval_cases fan_id <;> rfl

theorem fan_base_eq (fan_id : Nat) (h1 : 1 ≤ fan_id) (h3 : fan_id ≤ 3) :
    fan_base fan_id = .ok (fan_base_val fan_id) := by
  interval_cases fan_id <;> rfl

/-! ## Claims -/

/-- C6: for every fan_id in {1,2,3} and level in [0,5], decoding the
encoded fan-level byte returns the same level, and decoding any byte whose
low nibble is not one of the six known codes {0x2,…,0x7} returns level 0
(off), never an error (the decode is a total function). -/
theorem C6_level_roundtrip_and_lenient :
    (∀ fan_id level : Nat, 1 ≤ fan_id → fan_id ≤ 3 → level ≤ 5 →
      decode_level (encode_level fan_id level) = level) ∧
    (∀ b : Nat,
      b &&& 0xF ≠ 0x2 → b &&& 0xF ≠ 0x3 → b &&& 0xF ≠ 0x4 →
      b &&& 0xF ≠ 0x5 → b &&& 0xF ≠ 0x6 → b &&& 0xF ≠ 0x7 →
      decode_level b = 0) := by
  constructor
  · intro fan_id level h1 h3 hl
    interval_cases fan_id <;> interval_cases level <;> decide
  · intro b h2 h3 h4 h5 h6 h7
    simp only [decode_level]
    rw [if_neg h7, if_neg h2, if_neg h3, if_neg h4, if_neg h5, if_neg h6]

/-- Witness for C6: round trip at fan 1, level 3; byte 0x18 (low nibble
0x8, unrecognized) decodes to 0. -/
theorem C6_witness :
    decode_level (encode_level 1 3) = 3 ∧ decode_level 0x18 = 0 :=
  ⟨C6_level_roundtrip_and_lenient.1 1 3 (by decide) (by decide) (by decide),
   C6_level_roundtrip_and_lenient.2 0x18 (by decide) (by decide) (by decide)
     (by decide) (by decide) (by decide)⟩

/-- C7: GetFanRpm for a fan in {1,2,3} returns the big-endian combination
`(high <<< 8) ||| low` of the fan's two speed registers, except that for
fan 3 the exact combined value 8000 is normalized to 0; for fans 1 and 2
the combined value (8000 included) is returned unchanged. -/
theorem C7_get_fan_rpm (hw : Hw) (s : EcSt) (fan_id high low : Nat)
    (h1 : 1 ≤ fan_id) (h3 : fan_id ≤ 3)
    (hhigh : hw.readReg (fan_speed_high_reg fan_id) = .ok high)
    (hlow : hw.readReg (fan_speed_low_reg fan_id) = .ok low) :
    (execute_operation hw s (.GetFanRpm fan_id)).1 =
      .ok (.FanRpm (if fan_id = 3 ∧ (high <<< 8) ||| low = 8000 then 0
                    else (high <<< 8) ||| low)) := by
  interval_cases fan_id <;>
    simp_all [execute_operation, get_fan_speed_registers, fan_speed_high_reg,
      fan_speed_low_reg, read_byte]

/-- Witness for C7: fan 3 with raw speed bytes 0x1F40 = 8000 reports RPM 0,
while fan 1 with the same raw bytes reports 8000. -/
theorem C7_witness :
    (execute_operation hw0 st0 (.GetFanRpm 3)).1 = .ok (.FanRpm 0) ∧
    (execute_operation hw0 st0 (.GetFanRpm 1)).1 = .ok (.FanRpm 8000) := by
  constructor
  · have h := C7_get_fan_rpm hw0 st0 3 0x1F 0x40 (by decide) (by decide) rfl rfl
    simpa using h
  · have h := C7_get_fan_rpm hw0 st0 1 0x1F 0x40 (by decide) (by decide) rfl rfl
    simpa using h

/-- C8: SetApuPowerMode writes 0x00 for "balanced", 0x01 for "performance"
and 0x02 for "quiet" to the power-mode register and returns that mode
string; any other string fails with an invalid-mode error and the whole
state (in particular the hardware access trace) is untouched — no register
write is attempted. -/
theorem C8_set_apu_power_mode (hw : Hw) (s : EcSt) (mode : String) :
    ((mode = "balanced" ∨ mode = "performance" ∨ mode = "quiet") →
      ∃ v, ((mode = "balanced" ∧ v = 0x00) ∨ (mode = "performance" ∧ v = 0x01) ∨
            (mode = "quiet" ∧ v = 0x02)) ∧
        (execute_operation hw s (.SetApuPowerMode mode)).2.trace =
          s.trace ++ [.write EC_REG_APU_POWER_MODE v] ∧
        (hw.writeReg EC_REG_APU_POWER_MODE v = .ok () →
          (execute_operation hw s (.SetApuPowerMode mode)).1 =
            .ok (.ApuPowerMode mode))) ∧
    (mode ≠ "balanced" → mode ≠ "performance" → mode ≠ "quiet" →
      execute_operation hw s (.SetApuPowerMode mode) =
        (.error ("Invalid power mode: " ++ mode), s)) := by
  constructor
  · rintro (h | h | h) <;> subst h
    · refine ⟨0x00, by simp, ?_, ?_⟩
      · cases hwr : hw.writeReg EC_REG_APU_POWER_MODE 0x00 <;>
          simp [execute_operation, write_byte, hwr]
      · intro hok
        simp [execute_operation, write_byte, hok]
    · refine ⟨0x01, by simp, ?_, ?_⟩
      · cases hwr : hw.writeReg EC_REG_APU_POWER_MODE 0x01 <;>
          simp [execute_operation, write_byte, hwr]
      · intro hok
        simp [execute_operation, write_byte, hok]
    · refine ⟨0x02, by simp, ?_, ?_⟩
      · cases hwr : hw.writeReg EC_REG_APU_POWER_MODE 0x02 <;>
          simp [execute_operation, write_byte, hwr]
      · intro hok
        simp [execute_operation, write_byte, hok]
  · intro h1 h2 h3
    simp [execute_operation, h1, h2, h3]

/-- Witness for C8: "invalid" is rejected with the state untouched, and
"quiet" succeeds. -/
theorem C8_witness :
    execute_operation hw0 st0 (.SetApuPowerMode "invalid") =
      (.error "Invalid power mode: invalid", st0) ∧
    (execute_operation hw0 st0 (.SetApuPowerMode "quiet")).1 =
      .ok (.ApuPowerMode "quiet") := by
  constructor
  · exact (C8_set_apu_power_mode hw0 st0 "invalid").2
      (by decide) (by decide) (by decide)
  · obtain ⟨v, _, _, hok⟩ :=
      (C8_set_apu_power_mode hw0 st0 "quiet").1 (by simp)
    exact hok rfl

/-- C5 counterexample: GetFanMode(1) with the fan-1 mode register reading
0x20 — fan 2's base, not fan 1's base 0x10 or 0x10+1 — returns "auto"
rather than an error: the decode accepts any of the three bases, not only
the queried fan's own base. -/
theorem C5_cross_base_cex :
    (execute_operation hw_cross st0 (.GetFanMode 1)).1 = .ok (.FanMode "auto") ∧
    mem_cross EC_REG_FAN1_MODE ≠ 0x10 ∧
    mem_cross EC_REG_FAN1_MODE ≠ 0x10 + 1 := by
  refine ⟨rfl, by decide, by decide⟩

/-- C5 (amended): for a fan in {1,2,3}, GetFanMode returns "auto" when the
mode register reads any of the three base bytes {0x10,0x20,0x30}
(regardless of which fan is queried), returns "curve" or "fixed" according
to the software-held mode field when it reads any of {0x11,0x21,0x31}, and
returns an error only for bytes outside these six values. -/
theorem C5_get_fan_mode_decode (hw : Hw) (s : EcSt) (fan_id b : Nat)
    (h1 : 1 ≤ fan_id) (h3 : fan_id ≤ 3)
    (hread : hw.readReg (fan_mode_reg_val fan_id) = .ok b) :
    ((b = 0x10 ∨ b = 0x20 ∨ b = 0x30) →
      (execute_operation hw s (.GetFanMode fan_id)).1 = .ok (.FanMode "auto")) ∧
    ((b = 0x11 ∨ b = 0x21 ∨ b = 0x31) →
      (execute_operation hw s (.GetFanMode fan_id)).1 =
        .ok (.FanMode (if (s.curves.get (fan_id - 1)).mode = FanMode.Curve
                       then "curve" else "fixed"))) ∧
    (b ≠ 0x10 → b ≠ 0x20 → b ≠ 0x30 → b ≠ 0x11 → b ≠ 0x21 → b ≠ 0x31 →
      (execute_operation hw s (.GetFanMode fan_id)).1 =
        .error ("Unknown fan mode: 0x" ++ hex2 b)) := by
  have hreg := get_fan_mode_register_eq fan_id h1 h3
  refine ⟨?_, ?_, ?_⟩
  · rintro (hb | hb | hb) <;> subst hb <;>
      simp [execute_operation, hreg, read_byte, hread]
  · rintro (hb | hb | hb) <;> subst hb <;>
      simp only [execute_operation, hreg, read_byte, hread] <;>
      norm_num <;> split_ifs <;> simp
  · intro n1 n2 n3 n4 n5 n6
    simp [execute_operation, hreg, read_byte, hread, n1, n2, n3, n4, n5, n6]

/-- Witness for the amended C5: fan 1 reading 0x11 with stored mode Auto
reports "fixed". -/
theorem C5_witness :
    (execute_operation (hw_of mem_fx) st0 (.GetFanMode 1)).1 =
      .ok (.FanMode "fixed") := by
  have h := (C5_get_fan_mode_decode (hw_of mem_fx) st0 1 0x11
    (by decide) (by decide) rfl).2.1 (by decide)
  simpa using h

/-- C9: SetFanRampupCurve and SetFanRampdownCurve reject a fan id outside
{1,2,3} or a curve with any value above 100, leaving the stored state
unchanged; on success the stored curve for that fan equals the submitted
curve exactly; and these operations (and the corresponding Get operations)
never touch the hardware (the access trace is unchanged in every case). -/
theorem C9_curve_set_validation (hw : Hw) (s : EcSt) (fan_id : Nat) (curve : Curve5) :
    ((fan_id < 1 ∨ fan_id > 3) →
      execute_operation hw s (.SetFanRampupCurve fan_id curve) =
        (.error ("Invalid fan ID: " ++ toString fan_id), s) ∧
      execute_operation hw s (.SetFanRampdownCurve fan_id curve) =
        (.error ("Invalid fan ID: " ++ toString fan_id), s)) ∧
    (¬(fan_id < 1 ∨ fan_id > 3) →
      (curve.a0 > 100 ∨ curve.a1 > 100 ∨ curve.a2 > 100 ∨
        curve.a3 > 100 ∨ curve.a4 > 100) →
      execute_operation hw s (.SetFanRampupCurve fan_id curve) =
        (.error "Temperature values must be 0-100°C", s) ∧
      execute_operation hw s (.SetFanRampdownCurve fan_id curve) =
        (.error "Temperature values must be 0-100°C", s)) ∧
    (¬(fan_id < 1 ∨ fan_id > 3) →
      ¬(curve.a0 > 100 ∨ curve.a1 > 100 ∨ curve.a2 > 100 ∨
        curve.a3 > 100 ∨ curve.a4 > 100) →
      execute_operation hw s (.SetFanRampupCurve fan_id curve) =
        (.ok (.FanRampupCurve curve),
         { s with curves := s.curves.set_rampup (fan_id - 1) curve }) ∧
      execute_operation hw s (.SetFanRampdownCurve fan_id curve) =
        (.ok (.FanRampdownCurve curve),
         { s with curves := s.curves.set_rampdown (fan_id - 1) curve }) ∧
      ((execute_operation hw s (.SetFanRampupCurve fan_id curve)).2.curves.get
          (fan_id - 1)).rampup_curve = curve ∧
      ((execute_operation hw s (.SetFanRampdownCurve fan_id curve)).2.curves.get
          (fan_id - 1)).rampdown_curve = curve) ∧
    ((execute_operation hw s (.SetFanRampupCurve fan_id curve)).2.trace = s.trace ∧
     (execute_operation hw s (.SetFanRampdownCurve fan_id curve)).2.trace = s.trace ∧
     (execute_operation hw s (.GetFanRampupCurve fan_id)).2.trace = s.trace ∧
     (execute_operation hw s (.GetFanRampdownCurve fan_id)).2.trace = s.trace) := by
  refine ⟨?_, ?_, ?_, ?_⟩
  · intro h
    constructor <;>
    · simp only [execute_operation]
      rw [if_pos h]
  · intro h hv
    constructor <;>
    · simp only [execute_operation]
      rw [if_neg h, if_pos hv]
  · intro h hv
    have hf1 : 1 ≤ fan_id := by omega
    have hf3 : fan_id ≤ 3 := by omega
    refine ⟨?_, ?_, ?_, ?_⟩
    · simp only [execute_operation]
      rw [if_neg h, if_neg hv]
    · simp only [execute_operation]
      rw [if_neg h, if_neg hv]
    · simp only [execute_operation]
      rw [if_neg h, if_neg hv]
      interval_cases fan_id <;>
        simp [FanCurves.set_rampup, FanCurves.set, FanCurves.get]
    · simp only [execute_operation]
      rw [if_neg h, if_neg hv]
      interval_cases fan_id <;>
        simp [FanCurves.set_rampdown, FanCurves.set, FanCurves.get]
  · refine ⟨?_, ?_, ?_, ?_⟩ <;>
    · simp only [execute_operation]
      split_ifs <;> rfl

/-- Witness for C9: fan 0 is rejected, value 101 is rejected with the
state untouched, and a valid submission is stored exactly. -/
theorem C9_witness :
    execute_operation hw0 st0 (.SetFanRampupCurve 0 ⟨1, 2, 3, 4, 5⟩) =
      (.error ("Invalid fan ID: " ++ toString 0), st0) ∧
    execute_operation hw0 st0 (.SetFanRampupCurve 2 ⟨10, 20, 30, 40, 101⟩) =
      (.error "Temperature values must be 0-100°C", st0) ∧
    ((execute_operation hw0 st0
        (.SetFanRampupCurve 2 ⟨10, 20, 30, 40, 100⟩)).2.curves.get 1).rampup_curve =
      ⟨10, 20, 30, 40, 100⟩ := by
  refine ⟨?_, ?_, ?_⟩
  · exact ((C9_curve_set_validation hw0 st0 0 ⟨1, 2, 3, 4, 5⟩).1 (by decide)).1
  · exact ((C9_curve_set_validation hw0 st0 2 ⟨10, 20, 30, 40, 101⟩).2.1
      (by decide) (by decide)).1
  · exact ((C9_curve_set_validation hw0 st0 2 ⟨10, 20, 30, 40, 100⟩).2.2.1
      (by decide) (by decide)).2.2.1

/-- C10: with a valid fan id and mode string, SetFanMode stores the new
mode in the software state before attempting the hardware mode-register
write; if that write fails the operation returns the error, the write
attempt is on the trace, and the stored mode still holds the new mode —
the software state is not rolled back. -/
theorem C10_set_fan_mode_state_before_write (hw : Hw) (s : EcSt)
    (fan_id : Nat) (mode : String) (fm : FanMode) (e : String)
    (h1 : 1 ≤ fan_id) (h3 : fan_id ≤ 3)
    (hfm : FanMode.from_str mode = some fm)
    (hfail : hw.writeReg (fan_mode_reg_val fan_id)
        (match fm with
         | .Auto => fan_base_val fan_id
         | .Fixed => fan_base_val fan_id + 1
         | .Curve => fan_base_val fan_id + 1) = .error e) :
    execute_operation hw s (.SetFanMode fan_id mode) =
      (.error e,
       { curves := s.curves.set_mode (fan_id - 1) fm,
         trace := s.trace ++ [.write (fan_mode_reg_val fan_id)
           (match fm with
            | .Auto => fan_base_val fan_id
            | .Fixed => fan_base_val fan_id + 1
            | .Curve => fan_base_val fan_id + 1)] }) := by
  have hreg := get_fan_mode_register_eq fan_id h1 h3
  have hbase := fan_base_eq fan_id h1 h3
  cases fm <;> simp [execute_operation, hreg, hbase, hfm, write_byte, hfail]

/-- Witness for C10: SetFanMode(2,"curve") with a failing hardware write
returns the error while the stored mode field already holds Curve. -/
theorem C10_witness :
    execute_operation (hw_wfail mem0 "boom") st0 (.SetFanMode 2 "curve") =
      (.error "boom",
       { curves := initial_fan_curves.set_mode 1 .Curve,
         trace := [.write EC_REG_FAN2_MODE 0x21] }) := by
  have h := C10_set_fan_mode_state_before_write (hw_wfail mem0 "boom") st0
    2 "curve" .Curve "boom" (by decide) (by decide) (by decide) rfl
  simpa [st0, fan_mode_reg_val, fan_base_val] using h

/-- Characterization of the `update_curve_fans` scan: with all hardware
accesses succeeding, the loop returns Ok, never changes the stored curves,
and its hardware writes are exactly one single-step level write for the
first Curve-mode fan whose ramp decision fires — or none at all. -/
theorem update_curve_loop_spec (hw : Hw) (temp : Nat) (raw : Nat → Nat)
    (hwr : ∀ r v, hw.writeReg r v = .ok ()) :
    ∀ (fans : List Nat) (msgs : List String) (s : EcSt),
      (∀ f ∈ fans, 1 ≤ f ∧ f ≤ 3) →
      (∀ f ∈ fans, hw.readReg (fan_mode_reg_val f + 1) = .ok (raw f)) →
      (∃ m, (update_curve_loop hw temp msgs fans s).1 = .ok m) ∧
      (update_curve_loop hw temp msgs fans s).2.curves = s.curves ∧
      (update_curve_loop hw temp msgs fans s).2.trace.filter is_write =
        s.trace.filter is_write ++
        (match first_step s.curves temp (fun f => decode_level (raw f)) fans with
         | some (f, nl) =>
             [HwAccess.write (fan_mode_reg_val f + 1) (fan_base_val f + level_code nl)]
         | none => []) := by
  intro fans
  induction fans with
  | nil =>
    intro msgs s hb hr
    refine ⟨⟨msgs, rfl⟩, rfl, ?_⟩
    simp [update_curve_loop, first_step]
  | cons f rest ih =>
    intro msgs s hb hr
    obtain ⟨hf1, hf3⟩ := hb f (by simp)
    have hread : hw.readReg (fan_mode_reg_val f + 1) = .ok (raw f) := hr f (by simp)
    have hb2 : ∀ g ∈ rest, 1 ≤ g ∧ g ≤ 3 := fun g hg => hb g (by simp [hg])
    have hr2 : ∀ g ∈ rest, hw.readReg (fan_mode_reg_val g + 1) = .ok (raw g) :=
      fun g hg => hr g (by simp [hg])
    have hregf := get_fan_mode_register_eq f hf1 hf3
    have hbasef := fan_base_eq f hf1 hf3
    by_cases hm : (s.curves.get (f - 1)).mode = FanMode.Curve
    · by_cases hup : decode_level (raw f) < 5 ∧
          (s.curves.get (f - 1)).rampup_curve.get (decode_level (raw f)) ≤ temp
      · have hg : ¬ (decode_level (raw f) + 1 > 5) := by
          have := hup.1
          omega
        refine ⟨?_, ?_, ?_⟩
        · simp [update_curve_loop, hm, read_fan_level, hregf, read_byte, hread,
            hup, write_fan_level, hg, hbasef, write_byte, hwr]
        · simp [update_curve_loop, hm, read_fan_level, hregf, read_byte, hread,
            hup, write_fan_level, hg, hbasef, write_byte, hwr]
        · simp [update_curve_loop, hm, read_fan_level, hregf, read_byte, hread,
            hup, write_fan_level, hg, hbasef, write_byte, hwr,
            first_step, ramp_decision, is_write]
      · by_cases hdn : 0 < decode_level (raw f) ∧
            temp ≤ (s.curves.get (f - 1)).rampdown_curve.get (decode_level (raw f) - 1)
        · have hg : ¬ (decode_level (raw f) - 1 > 5) := by
            have := decode_level_le (raw f)
            omega
          refine ⟨?_, ?_, ?_⟩
          · simp [update_curve_loop, hm, read_fan_level, hregf, read_byte, hread,
              hup, hdn, write_fan_level, hg, hbasef, write_byte, hwr]
          · simp [update_curve_loop, hm, read_fan_level, hregf, read_byte, hread,
              hup, hdn, write_fan_level, hg, hbasef, write_byte, hwr]
          · simp [update_curve_loop, hm, read_fan_level, hregf, read_byte, hread,
              hup, hdn, write_fan_level, hg, hbasef, write_byte, hwr,
              first_step, ramp_decision, is_write]
        · have heq : update_curve_loop hw temp msgs (f :: rest) s =
              update_curve_loop hw temp msgs rest
                ({ s with trace := s.trace ++ [.read (fan_mode_reg_val f + 1)] }) := by
            simp [update_curve_loop, hm, read_fan_level, hregf, read_byte, hread,
              hup, hdn]
          obtain ⟨hok, hcur, htr⟩ := ih msgs
            ({ s with trace := s.trace ++ [.read (fan_mode_reg_val f + 1)] }) hb2 hr2
          rw [heq]
          refine ⟨hok, hcur, ?_⟩
          rw [htr]
          simp [first_step, ramp_decision, hm, hup, hdn, is_write]
    · have heq : update_curve_loop hw temp msgs (f :: rest) s =
          update_curve_loop hw temp msgs rest s := by
        simp [update_curve_loop, hm]
      obtain ⟨hok, hcur, htr⟩ := ih msgs s hb2 hr2
      rw [heq]
      refine ⟨hok, hcur, ?_⟩
      rw [htr]
      simp [first_step, hm]

theorem interleaving_nil_right {α : Type} (xs : List α) :
    Interleaving xs [] xs := by
  induction xs with
  | nil => exact .nil
  | cons x xs ih => exact .left ih

theorem interleaving_ys_then_xs {α : Type} (xs ys : List α) :
    Interleaving xs ys (ys ++ xs) := by
  induction ys with
  | nil => simpa using interleaving_nil_right xs
  | cons y ys ih => exact .right ih

/-- C1: the curve monitoring task of src/server/src/main.rs (lines
544-585) calls `update_curve_fans` on the shared controller directly — its
first hardware act is a temperature register read — while the EC operation
handler task (lines 524-542, the Operation Serializer worker) executes
queued operations such as GetApuTemperature with the same kind of register
handshake.  Because the two run as independent tasks with no common
serialization of the port handshake, there is an interleaving of their
port-level steps in which the monitor's handshake encloses a serializer
step: two EC Link Protocol handshakes overlap, contradicting the claim
that every handshake is issued through the single serializer queue. -/
theorem C1_monitor_serializer_overlap :
    has_curve_fans st_curve1.curves = true ∧
    (update_curve_fans hw0 st_curve1).2.trace.head? =
      some (.read EC_REG_APU_TEMPERATURE) ∧
    (execute_operation hw0 st_curve1 .GetApuTemperature).2.trace =
      [.read EC_REG_APU_TEMPERATURE] ∧
    (∃ t, Interleaving
        (tag .monitor (port_steps (.read EC_REG_APU_TEMPERATURE)))
        (tag .serializer (port_steps (.read EC_REG_APU_TEMPERATURE))) t ∧
      overlapped t) := by
  refine ⟨rfl, rfl, rfl, ?_⟩
  refine ⟨(TaskId.monitor, .read COMMAND_PORT) ::
    (tag .serializer (port_steps (.read EC_REG_APU_TEMPERATURE)) ++
      [(TaskId.monitor, .write COMMAND_PORT EC_COMMAND_READ),
       (TaskId.monitor, .read COMMAND_PORT),
       (TaskId.monitor, .write DATA_PORT EC_REG_APU_TEMPERATURE),
       (TaskId.monitor, .read COMMAND_PORT),
       (TaskId.monitor, .read COMMAND_PORT),
       (TaskId.monitor, .read DATA_PORT)]), ?_, ?_⟩
  · exact .left (interleaving_ys_then_xs _ _)
  · exact ⟨0, 1, 8, by decide, by decide, by decide, by decide, by decide⟩

/-- C2: on a monitor tick with all hardware accesses succeeding and
temperature `temp`, scanning fans 1,2,3 in order, the first Curve-mode fan
whose level `L` meets a threshold condition takes exactly one level step
(`L+1` when `L < 5` and `rampup[L] ≤ temp`, else `L-1` when `L > 0` and
`temp ≤ rampdown[L-1]`) via a single level-register write, and no other
fan's level register is written on that tick; if no Curve-mode fan meets a
condition, no level write happens at all. -/
theorem C2_curve_tick_single_step (hw : Hw) (s : EcSt) (temp : Nat)
    (raw : Nat → Nat)
    (htemp : hw.readReg EC_REG_APU_TEMPERATURE = .ok temp)
    (hlev : ∀ f, 1 ≤ f → f ≤ 3 →
      hw.readReg (fan_mode_reg_val f + 1) = .ok (raw f))
    (hwr : ∀ r v, hw.writeReg r v = .ok ()) :
    (∃ m, (update_curve_fans hw s).1 = .ok m) ∧
    (update_curve_fans hw s).2.curves = s.curves ∧
    (update_curve_fans hw s).2.trace.filter is_write =
      s.trace.filter is_write ++
      (match first_step s.curves temp (fun f => decode_level (raw f)) [1, 2, 3] with
       | some (f, nl) =>
           [HwAccess.write (fan_mode_reg_val f + 1) (fan_base_val f + level_code nl)]
       | none => []) := by
  have hb : ∀ f ∈ [1, 2, 3], 1 ≤ f ∧ f ≤ 3 := by
    intro f hf
    simp at hf
    rcases hf with h | h | h <;> subst h <;> exact ⟨by omega, by omega⟩
  have hr : ∀ f ∈ [1, 2, 3], hw.readReg (fan_mode_reg_val f + 1) = .ok (raw f) := by
    intro f hf
    simp at hf
    rcases hf with h | h | h <;> subst h <;> exact hlev _ (by omega) (by omega)
  obtain ⟨hok, hcur, htr⟩ := update_curve_loop_spec hw temp raw hwr [1, 2, 3] []
    ({ s with trace := s.trace ++ [.read EC_REG_APU_TEMPERATURE] }) hb hr
  have heq : update_curve_fans hw s =
      update_curve_loop hw temp [] [1, 2, 3]
        ({ s with trace := s.trace ++ [.read EC_REG_APU_TEMPERATURE] }) := by
    simp [update_curve_fans, read_byte, htemp]
  rw [heq]
  refine ⟨hok, hcur, ?_⟩
  rw [htr]
  simp [is_write]

/-- Witness for C2: fan 1 in Curve mode at level 1 (raw byte 0x12) with
temperature 75°C ≥ rampup[1] = 70 steps to level 2 with exactly one level
write, and the scan returns Ok. -/
theorem C2_witness :
    (update_curve_fans hw0 st_curve1).2.trace.filter is_write =
      [HwAccess.write (EC_REG_FAN1_MODE + 1) (0x10 + level_code 2)] ∧
    (∃ m, (update_curve_fans hw0 st_curve1).1 = .ok m) := by
  obtain ⟨hok, hcur, htr⟩ := C2_curve_tick_single_step hw0 st_curve1 75
    (fun f => mem0 (fan_mode_reg_val f + 1)) rfl (fun f _ _ => rfl)
    (fun r v => rfl)
  refine ⟨?_, hok⟩
  rw [htr]
  rfl

/-- C4: SetFanMode(fan_id,"curve") with a valid fan id writes the mode
register, reads the current temperature, and immediately issues a
level-set whose level is `initial_curve_level` of the fan's rampup curve
at that temperature — the largest `i ∈ [1,5]` with `rampup[i-1] ≤ temp`,
or 0 when the temperature is below every threshold. -/
theorem C4_set_fan_mode_curve (hw : Hw) (s : EcSt) (fan_id temp : Nat)
    (h1 : 1 ≤ fan_id) (h3 : fan_id ≤ 3)
    (htemp : hw.readReg EC_REG_APU_TEMPERATURE = .ok temp)
    (hwr : ∀ r v, hw.writeReg r v = .ok ()) :
    execute_operation hw s (.SetFanMode fan_id "curve") =
      (.ok (.FanMode "curve"),
       { curves := s.curves.set_mode (fan_id - 1) .Curve,
         trace := s.trace ++
           [.write (fan_mode_reg_val fan_id) (fan_base_val fan_id + 1),
            .read EC_REG_APU_TEMPERATURE,
            .write (fan_mode_reg_val fan_id + 1)
              (fan_base_val fan_id + level_code
                (initial_curve_level ((s.curves.get (fan_id - 1)).rampup_curve) temp))] }) ∧
    ((initial_curve_level ((s.curves.get (fan_id - 1)).rampup_curve) temp = 0 ∧
        ∀ i, 1 ≤ i → i ≤ 5 →
          temp < ((s.curves.get (fan_id - 1)).rampup_curve).get (i - 1)) ∨
     (1 ≤ initial_curve_level ((s.curves.get (fan_id - 1)).rampup_curve) temp ∧
        initial_curve_level ((s.curves.get (fan_id - 1)).rampup_curve) temp ≤ 5 ∧
        ((s.curves.get (fan_id - 1)).rampup_curve).get
          (initial_curve_level ((s.curves.get (fan_id - 1)).rampup_curve) temp - 1) ≤ temp ∧
        ∀ i, initial_curve_level ((s.curves.get (fan_id - 1)).rampup_curve) temp < i →
          i ≤ 5 → temp < ((s.curves.get (fan_id - 1)).rampup_curve).get (i - 1))) := by
  constructor
  · have hng : ∀ ru : Curve5, ¬ (initial_curve_level ru temp > 5) := fun ru => by
      have := initial_curve_level_le ru temp
      omega
    interval_cases fan_id <;>
      simp [execute_operation, FanMode.from_str, read_byte, write_byte,
        write_fan_level, get_fan_mode_register, fan_base, fan_mode_reg_val,
        fan_base_val, FanCurves.set_mode, FanCurves.set, FanCurves.get,
        htemp, hwr, hng]
  · exact initial_curve_level_spec _ temp

/-- Witness for C4: SetFanMode(1,"curve") at temperature 75°C with the
default rampup curve [60,70,83,95,97] immediately issues level 2
(byte 0x10 + code 0x3 to register 0x22). -/
theorem C4_witness :
    execute_operation hw0 st0 (.SetFanMode 1 "curve") =
      (.ok (.FanMode "curve"),
       { curves := initial_fan_curves.set_mode 0 .Curve,
         trace := [.write EC_REG_FAN1_MODE 0x11, .read EC_REG_APU_TEMPERATURE,
                   .write (EC_REG_FAN1_MODE + 1) (0x10 + level_code 2)] }) := by
  have h := (C4_set_fan_mode_curve hw0 st0 1 75 (by decide) (by decide) rfl
    (fun r v => rfl)).1
  rw [h]
  rfl

/-- C3: a register read (and likewise a write) succeeds exactly when one
of its at most 5 consecutive handshake attempts succeeds: 4 timeouts
followed by a success on the 5th attempt yield overall success with that
value; 5 timeouts yield the hardware-communication error; and the outcome
depends only on the first 5 attempt results, so a 6th attempt is never
consulted. -/
theorem C3_retry_ceiling (ra : Nat → Except String Nat)
    (wa : Nat → Except String Unit) (v : Nat) :
    (((∀ i, i < 4 → ∃ e, ra i = .error e) → ra 4 = .ok v →
        read_byte_model ra = .ok v) ∧
     ((∀ i, i < 5 → ∃ e, ra i = .error e) →
        read_byte_model ra = .error "Failed to read byte after retries") ∧
     (∀ ra2 : Nat → Except String Nat, (∀ i, i < 5 → ra i = ra2 i) →
        read_byte_model ra = read_byte_model ra2) ∧
     ((read_byte_model ra).isOk = true ↔ ∃ i, i < 5 ∧ (ra i).isOk = true)) ∧
    (((∀ i, i < 4 → ∃ e, wa i = .error e) → wa 4 = .ok () →
        write_byte_model wa = .ok ()) ∧
     ((∀ i, i < 5 → ∃ e, wa i = .error e) →
        write_byte_model wa = .error "Failed to write byte after retries") ∧
     ((write_byte_model wa).isOk = true ↔ ∃ i, i < 5 ∧ (wa i).isOk = true)) := by
  constructor
  · refine ⟨?_, ?_, ?_, ?_⟩
    · intro h h4
      obtain ⟨e0, h0⟩ := h 0 (by omega)
      obtain ⟨e1, h1⟩ := h 1 (by omega)
      obtain ⟨e2, h2⟩ := h 2 (by omega)
      obtain ⟨e3, h3⟩ := h 3 (by omega)
      simp [read_byte_model, MAX_RETRIES, ec_retry, h0, h1, h2, h3, h4]
    · intro h
      obtain ⟨e0, h0⟩ := h 0 (by omega)
      obtain ⟨e1, h1⟩ := h 1 (by omega)
      obtain ⟨e2, h2⟩ := h 2 (by omega)
      obtain ⟨e3, h3⟩ := h 3 (by omega)
      obtain ⟨e4, h4⟩ := h 4 (by omega)
      simp [read_byte_model, MAX_RETRIES, ec_retry, h0, h1, h2, h3, h4]
    · intro ra2 hsame
      simp only [read_byte_model, MAX_RETRIES, ec_retry]
      rw [hsame 0 (by omega), hsame 1 (by omega), hsame 2 (by omega),
        hsame 3 (by omega), hsame 4 (by omega)]
    · simpa [read_byte_model, MAX_RETRIES] using
        ec_retry_isOk_iff "Failed to read byte after retries" ra 5 0
  · refine ⟨?_, ?_, ?_⟩
    · intro h h4
      obtain ⟨e0, h0⟩ := h 0 (by omega)
      obtain ⟨e1, h1⟩ := h 1 (by omega)
      obtain ⟨e2, h2⟩ := h 2 (by omega)
      obtain ⟨e3, h3⟩ := h 3 (by omega)
      simp [write_byte_model, MAX_RETRIES, ec_retry, h0, h1, h2, h3, h4]
    · intro h
      obtain ⟨e0, h0⟩ := h 0 (by omega)
      obtain ⟨e1, h1⟩ := h 1 (by omega)
      obtain ⟨e2, h2⟩ := h 2 (by omega)
      obtain ⟨e3, h3⟩ := h 3 (by omega)
      obtain ⟨e4, h4⟩ := h 4 (by omega)
      simp [write_byte_model, MAX_RETRIES, ec_retry, h0, h1, h2, h3, h4]
    · simpa [write_byte_model, MAX_RETRIES] using
        ec_retry_isOk_iff "Failed to write byte after retries" wa 5 0

/-- Witness for C3: 4 timeouts then success on the 5th yields the value;
5 straight timeouts yield the failure; same for a write. -/
theorem C3_witness :
    read_byte_model attempts_late = .ok 7 ∧
    read_byte_model attempts_timeout = .error "Failed to read byte after retries" ∧
    write_byte_model wattempts_late = .ok () := by
  refine ⟨?_, ?_, ?_⟩
  · exact (C3_retry_ceiling attempts_late wattempts_late 7).1.1
      (fun i hi => ⟨"Timeout waiting for read", by interval_cases i <;> rfl⟩) rfl
  · exact (C3_retry_ceiling attempts_timeout wattempts_late 0).1.2.1
      (fun i _ => ⟨"Timeout waiting for read", rfl⟩)
  · exact (C3_retry_ceiling attempts_timeout wattempts_late 0).2.1
      (fun i hi => ⟨"Timeout waiting for write", by interval_cases i <;> rfl⟩) rfl

end EcSu
